import Mathlib

/-!
# prometheus-cachethq: the bootstrap in `main.go`

A shallow embedding of `func main()` of `main.go` and of the pieces of the
Go standard library it calls, followed by theorems about the configuration
it computes and the server it starts.

`main` is embedded as a chain of stages in source order:

* `flagParse`   lines 32-51: the local variables, the eleven registered flags
                 with their defaults, and `flag.Parse()`;
* `grabEnv`     lines 53-86: the environment overrides;
* `loadRootCAs` lines 88-96: the certificate pool, which may `log.Fatal`;
* `configure`   lines 31-110: the three stages above, the HTTP client
                 (lines 98-105) and the log level (lines 107-110);
* `buildServer` lines 111-119: the router and the `http.Server` literal;
* `serve`       lines 121-125: the choice between HTTPS and plain HTTP;
* `main`        the whole function.

The outside world enters as explicit arguments: the command line as left by
`flag.Parse`, the environment as a lookup function, and the file system as
the result of `ioutil.ReadFile`.
-/

namespace PrometheusCachetHQ

/-! ## Constants and data types -/

/-- Go constant `LOG_DEBUG = 0` (line 17). -/
def LOG_DEBUG : Int := 0

/-- Go constant `LOG_INFO = 1` (line 18). -/
def LOG_INFO : Int := 1

/-- Go `time.Duration`: a signed count of nanoseconds. -/
abbrev Duration := Int

/-- Go `time.Second`. -/
def Second : Duration := 1000000000

/-- Go `*x509.CertPool`, kept as the list of PEM blobs handed to
`AppendCertsFromPEM`, in order. `x509.NewCertPool()` is the empty list. -/
abbrev CertPool := List (List UInt8)

/-- Go `tls.Config`, restricted to the two fields the literal at lines
100-103 sets. -/
structure TLSConfig where
  RootCAs : CertPool
  InsecureSkipVerify : Bool
  deriving DecidableEq, Repr

/-- Go `http.Transport`: the field the literal at lines 99-104 sets, and the
timeout fields of the struct, which the literal leaves out. -/
structure Transport where
  TLSClientConfig : TLSConfig
  TLSHandshakeTimeout : Duration
  ResponseHeaderTimeout : Duration
  ExpectContinueTimeout : Duration
  IdleConnTimeout : Duration
  deriving DecidableEq, Repr

/-- Go `http.Client`: the `Transport` and the `Timeout` field. In net/http a
`Timeout` of zero means no timeout. -/
structure Client where
  Transport : Transport
  Timeout : Duration
  deriving DecidableEq, Repr

/-- Go struct `PrometheusCachetConfig` (lines 21-29). `HttpClient` is a
pointer, nil until line 98 assigns it. -/
structure PrometheusCachetConfig where
  PrometheusToken : String
  CachetURL : String
  CachetToken : String
  LabelName : String
  LogLevel : Int
  HttpClient : Option Client
  CachetIncidentVisibility : Bool
  deriving DecidableEq, Repr

/-- The local variables of `main` (lines 32-38). -/
structure Vars where
  config : PrometheusCachetConfig
  loglevel : String
  httpPort : Int
  sslCert : String
  sslKey : String
  cachetRootCA : String
  cachetSkipVerifySsl : Bool
  deriving DecidableEq, Repr

/-- The command line as `flag.Parse()` leaves it (line 51): for each of the
eleven registered flags, the value it was set to on the command line, or
`none` when the flag was not given. A command line that `flag.Parse` rejects
ends the process inside `flag.Parse` and never reaches the code below. -/
structure CommandLine where
  prometheus_token : Option String
  cachethq_url : Option String
  cachethq_token : Option String
  cachethq_root_ca : Option String
  cachethq_skip_verify_ssl : Option Bool
  log_level : Option String
  ssl_cert_file : Option String
  ssl_key_file : Option String
  label_name : Option String
  http_port : Option Int
  visible : Option Bool
  deriving DecidableEq, Repr

/-- The command line with no flag given. -/
def noFlags : CommandLine :=
  ⟨none, none, none, none, none, none, none, none, none, none, none⟩

/-- The process environment: a variable is unset (`none`) or has a value. -/
abbrev Env := String → Option String

/-- The environment with no variable set. -/
def noEnv : Env := fun _ => none

/-- Go `os.Getenv`: the value of the variable, the empty string when the
variable is unset. -/
def Getenv (env : Env) (key : String) : String :=
  match env key with
  | some value => value
  | none => ""

/-- The file system as `ioutil.ReadFile` sees it: the bytes of the file, or
the error. -/
abbrev ReadFile := String → Except String (List UInt8)

/-! ## `strconv.Atoi` -/

/-- The loop of `strconv.ParseUint` in base 10 without a width limit: every
character has to be an ASCII digit. -/
def parseDigits : List Char → Nat → Option Nat
  | [], n => some n
  | c :: cs, n =>
    if '0' ≤ c ∧ c ≤ '9' then parseDigits cs (n * 10 + (c.toNat - '0'.toNat)) else none

/-- Go `strconv.Atoi` for a 64-bit `int`: an optional sign, then at least
one decimal digit, and the value has to lie in `[-2^63, 2^63 - 1]`; `none`
is the case `err != nil`. -/
def Atoi (s : String) : Option Int :=
  match s.data with
  | [] => none
  | c :: cs =>
    let neg := c == '-'
    let digits := if c == '+' || c == '-' then cs else c :: cs
    match digits with
    | [] => none
    | _ :: _ =>
      match parseDigits digits 0 with
      | none => none
      | some un =>
        if !neg && un ≥ 2 ^ 63 then none
        else if neg && un > 2 ^ 63 then none
        else some (if neg then -(un : Int) else (un : Int))

/-! ## The stages of `main` -/

/-- Lines 32-51 of `main`: the declarations, the registration of the flags
with their defaults, and `flag.Parse()`. -/
def flagParse (cl : CommandLine) : Vars :=
  { config :=
      { PrometheusToken := cl.prometheus_token.getD ""
        CachetURL := cl.cachethq_url.getD "http://127.0.0.1/"
        CachetToken := cl.cachethq_token.getD ""
        LabelName := cl.label_name.getD "alertname"
        LogLevel := 0
        HttpClient := none
        CachetIncidentVisibility := cl.visible.getD false }
    loglevel := cl.log_level.getD "info"
    httpPort := cl.http_port.getD 8080
    sslCert := cl.ssl_cert_file.getD ""
    sslKey := cl.ssl_key_file.getD ""
    cachetRootCA := cl.cachethq_root_ca.getD ""
    cachetSkipVerifySsl := cl.cachethq_skip_verify_ssl.getD false }

/-- Lines 53-86 of `main`: the environment overrides, in source order. -/
def grabEnv (env : Env) (v : Vars) : Vars :=
  let v := if Getenv env "PROMETHEUS_TOKEN" ≠ "" then
      { v with config := { v.config with PrometheusToken := Getenv env "PROMETHEUS_TOKEN" } }
    else v
  let v := if Getenv env "CACHETHQ_URL" ≠ "" then
      { v with config := { v.config with CachetURL := Getenv env "CACHETHQ_URL" } }
    else v
  let v := if Getenv env "CACHETHQ_TOKEN" ≠ "" then
      { v with config := { v.config with CachetToken := Getenv env "CACHETHQ_TOKEN" } }
    else v
  let v := if Getenv env "CACHETHQ_ROOT_CA" ≠ "" then
      { v with cachetRootCA := Getenv env "CACHETHQ_ROOT_CA" }
    else v
  let v := if Getenv env "CACHETHQ_SKIP_VERIFY_SSL" = "true" then
      { v with cachetSkipVerifySsl := true }
    else v
  let v := if Getenv env "LOG_LEVEL" ≠ "" then
      { v with loglevel := Getenv env "LOG_LEVEL" }
    else v
  let v := if Getenv env "HTTP_PORT" ≠ "" then
      match Atoi (Getenv env "HTTP_PORT") with
      | some port => { v with httpPort := port }
      | none => v
    else v
  let v := if Getenv env "SSL_CERT_FILE" ≠ "" then
      { v with sslCert := Getenv env "SSL_CERT_FILE" }
    else v
  let v := if Getenv env "SSL_KEY_FILE" ≠ "" then
      { v with sslKey := Getenv env "SSL_KEY_FILE" }
    else v
  let v := if Getenv env "LABEL_NAME" ≠ "" then
      { v with config := { v.config with LabelName := Getenv env "LABEL_NAME" } }
    else v
  v

/-- Lines 88-96 of `main`: a fresh pool, to which the contents of the root CA
file are appended when a path is configured. `Except.error` is the
`log.Fatal(err)` of line 92. -/
def loadRootCAs (readFile : ReadFile) (cachetRootCA : String) : Except String CertPool :=
  let caCertPool : CertPool := []
  if cachetRootCA ≠ "" then
    match readFile cachetRootCA with
    | .error err => .error err
    | .ok caCert => .ok (caCertPool ++ [caCert])
  else .ok caCertPool

/-- Lines 98-105 of `main`: the `http.Client` literal. Fields the literal does
not name keep their Go zero value. -/
def buildHttpClient (caCertPool : CertPool) (cachetSkipVerifySsl : Bool) : Client :=
  { Transport :=
      { TLSClientConfig :=
          { RootCAs := caCertPool
            InsecureSkipVerify := cachetSkipVerifySsl }
        TLSHandshakeTimeout := 0
        ResponseHeaderTimeout := 0
        ExpectContinueTimeout := 0
        IdleConnTimeout := 0 }
    Timeout := 0 }

/-- Lines 107-110 of `main`: `LOG_INFO`, replaced by `LOG_DEBUG` when the
string is `debug`. -/
def setLogLevel (loglevel : String) (config : PrometheusCachetConfig) :
    PrometheusCachetConfig :=
  let config := { config with LogLevel := LOG_INFO }
  if loglevel = "debug" then { config with LogLevel := LOG_DEBUG } else config

/-- Lines 31-110 of `main`: the configuration step. `Except.error` is the
`log.Fatal(err)` of line 92, the only exit in these lines once `flag.Parse`
has returned. -/
def configure (readFile : ReadFile) (cl : CommandLine) (env : Env) : Except String Vars :=
  let v := grabEnv env (flagParse cl)
  match loadRootCAs readFile v.cachetRootCA with
  | .error err => .error err
  | .ok caCertPool =>
    let config := { v.config with
      HttpClient := some (buildHttpClient caCertPool v.cachetSkipVerifySsl) }
    .ok { v with config := setLogLevel v.loglevel config }

/-- Go `http.Server`, restricted to the fields the literal at lines 113-119
sets. `Router` is the type of the handler `PrepareGinRouter` returns. -/
structure Server (Router : Type) where
  Addr : String
  Handler : Router
  ReadTimeout : Duration
  WriteTimeout : Duration
  MaxHeaderBytes : Nat

/-- What `main` ends in: the `log.Fatal(err)` of line 92, or one of the two
blocking server calls of lines 122 and 124. -/
inductive Outcome (Router : Type) where
  | fatal (err : String)
  | ListenAndServeTLS (server : Server Router) (certFile keyFile : String)
  | ListenAndServe (server : Server Router)

/-- Lines 111-119 of `main`. `PrepareGinRouter` is defined outside `main.go`
and enters as an argument. `fmt.Sprintf` with the verb `%d` prints a Go `int`
in decimal, with a leading minus sign when it is negative. -/
def buildServer {Router : Type} (PrepareGinRouter : PrometheusCachetConfig → Router)
    (v : Vars) : Server Router :=
  let router := PrepareGinRouter v.config
  { Addr := ":" ++ toString v.httpPort
    Handler := router
    ReadTimeout := 10 * Second
    WriteTimeout := 10 * Second
    MaxHeaderBytes := 1 <<< 20 }

/-- Lines 121-125 of `main`. -/
def serve {Router : Type} (server : Server Router) (sslCert sslKey : String) :
    Outcome Router :=
  if sslCert ≠ "" ∧ sslKey ≠ "" then
    .ListenAndServeTLS server sslCert sslKey
  else
    .ListenAndServe server

/-- Go `func main()` (lines 31-126). -/
def main {Router : Type} (PrepareGinRouter : PrometheusCachetConfig → Router)
    (readFile : ReadFile) (cl : CommandLine) (env : Env) : Outcome Router :=
  match configure readFile cl env with
  | .error err => .fatal err
  | .ok v => serve (buildServer PrepareGinRouter v) v.sslCert v.sslKey

/-- The ten environment variables `main` reads (lines 54-84). -/
def configEnvVars : List String :=
  ["PROMETHEUS_TOKEN", "CACHETHQ_URL", "CACHETHQ_TOKEN", "CACHETHQ_ROOT_CA",
   "CACHETHQ_SKIP_VERIFY_SSL", "LOG_LEVEL", "HTTP_PORT", "SSL_CERT_FILE", "SSL_KEY_FILE",
   "LABEL_NAME"]

/-! ## The incident state machine -/

/-- The status of an alert event (spec, section 3). -/
inductive EventStatus where
  | Firing
  | Resolved
  deriving DecidableEq, Repr

/-- The action computed for one alert event (spec, section 3). -/
inductive TransitionDecision where
  | CreateIncident
  | UpdateIncident
  | ResolveIncident
  | NoOp
  deriving DecidableEq, Repr

/-- Modelled from the spec: the incident state machine sits behind
`PrepareGinRouter` (line 111), whose source is not in `main.go`. This is the
table of section 4.3: the decision for the cached incident reference of an
identity, absent or present, and the status of the event. -/
def incidentStateMachine {IncidentRef : Type} (currentIncidentRef : Option IncidentRef)
    (eventStatus : EventStatus) : TransitionDecision :=
  match currentIncidentRef, eventStatus with
  | none, .Firing => .CreateIncident
  | none, .Resolved => .NoOp
  | some _, .Firing => .UpdateIncident
  | some _, .Resolved => .ResolveIncident

/-! ## Sample inputs -/

/-- A file system on which every read fails. -/
def noFiles : ReadFile := fun name => .error ("open " ++ name ++ ": no such file or directory")

/-- A file system that holds one root CA bundle. -/
def oneCAFile : ReadFile := fun name =>
  if name = "/etc/ssl/cachet-ca.pem" then .ok [45, 45, 45, 45, 45]
  else .error ("open " ++ name ++ ": no such file or directory")

/-- An environment as a container would set it. -/
def dockerEnv : Env := fun key =>
  if key = "PROMETHEUS_TOKEN" then some "s3cret"
  else if key = "CACHETHQ_ROOT_CA" then some "/etc/ssl/cachet-ca.pem"
  else if key = "CACHETHQ_SKIP_VERIFY_SSL" then some "false"
  else if key = "LOG_LEVEL" then some "DEBUG"
  else if key = "HTTP_PORT" then some "9090"
  else if key = "SSL_CERT_FILE" then some "/tls/server.crt"
  else if key = "SSL_KEY_FILE" then some ""
  else none

/-- A command line that sets five of the flags. -/
def sampleFlags : CommandLine :=
  { noFlags with
    cachethq_skip_verify_ssl := some true
    log_level := some "debug"
    ssl_cert_file := some "/flags/server.crt"
    ssl_key_file := some "/flags/server.key"
    http_port := some 8443 }

/-! ## Reading the environment -/

theorem Getenv_of_some {env : Env} {key value : String} (h : env key = some value) :
    Getenv env key = value := by
  simp only [Getenv, h]

theorem Getenv_of_none {env : Env} {key : String} (h : env key = none) :
    Getenv env key = "" := by
  simp only [Getenv, h]

theorem Getenv_eq_empty_iff (env : Env) (key : String) :
    Getenv env key = "" ↔ env key = none ∨ env key = some "" := by
  unfold Getenv
  cases h : env key with
  | none => simp
  | some value => simp

theorem Getenv_eq_true_iff (env : Env) (key : String) :
    Getenv env key = "true" ↔ env key = some "true" := by
  unfold Getenv
  cases h : env key with
  | none => simp
  | some value => simp

/-! ## What `grabEnv` leaves in each variable

One lemma per variable; each walks the ten `if` statements from the last to
the first. -/

theorem grabEnv_PrometheusToken (env : Env) (v : Vars) :
    (grabEnv env v).config.PrometheusToken =
      if Getenv env "PROMETHEUS_TOKEN" ≠ "" then Getenv env "PROMETHEUS_TOKEN" else v.config.PrometheusToken := by
  unfold grabEnv
  lift_lets
  intro s1 v1 s2 v2 s3 v3 v4 v5 v6 v7 v8 v9 s10 v10
  simp only [v10, s10, apply_ite Vars.config,
    apply_ite PrometheusCachetConfig.PrometheusToken, ite_self]
  simp only [v9, apply_ite Vars.config, apply_ite PrometheusCachetConfig.PrometheusToken, ite_self]
  simp only [v8, apply_ite Vars.config, apply_ite PrometheusCachetConfig.PrometheusToken, ite_self]
  have h7 : v7.config = v6.config := by
    simp only [v7]; split_ifs <;> (try split) <;> rfl
  rw [h7]
  simp only [v6, apply_ite Vars.config, apply_ite PrometheusCachetConfig.PrometheusToken, ite_self]
  simp only [v5, apply_ite Vars.config, apply_ite PrometheusCachetConfig.PrometheusToken, ite_self]
  simp only [v4, apply_ite Vars.config, apply_ite PrometheusCachetConfig.PrometheusToken, ite_self]
  simp only [v3, s3, apply_ite Vars.config,
    apply_ite PrometheusCachetConfig.PrometheusToken, ite_self]
  simp only [v2, s2, apply_ite Vars.config,
    apply_ite PrometheusCachetConfig.PrometheusToken, ite_self]
  simp only [v1, s1, apply_ite Vars.config,
    apply_ite PrometheusCachetConfig.PrometheusToken, ite_self]

theorem grabEnv_CachetURL (env : Env) (v : Vars) :
    (grabEnv env v).config.CachetURL =
      if Getenv env "CACHETHQ_URL" ≠ "" then Getenv env "CACHETHQ_URL" else v.config.CachetURL := by
  unfold grabEnv
  lift_lets
  intro s1 v1 s2 v2 s3 v3 v4 v5 v6 v7 v8 v9 s10 v10
  simp only [v10, s10, apply_ite Vars.config, apply_ite PrometheusCachetConfig.CachetURL, ite_self]
  simp only [v9, apply_ite Vars.config, apply_ite PrometheusCachetConfig.CachetURL, ite_self]
  simp only [v8, apply_ite Vars.config, apply_ite PrometheusCachetConfig.CachetURL, ite_self]
  have h7 : v7.config = v6.config := by
    simp only [v7]; split_ifs <;> (try split) <;> rfl
  rw [h7]
  simp only [v6, apply_ite Vars.config, apply_ite PrometheusCachetConfig.CachetURL, ite_self]
  simp only [v5, apply_ite Vars.config, apply_ite PrometheusCachetConfig.CachetURL, ite_self]
  simp only [v4, apply_ite Vars.config, apply_ite PrometheusCachetConfig.CachetURL, ite_self]
  simp only [v3, s3, apply_ite Vars.config, apply_ite PrometheusCachetConfig.CachetURL, ite_self]
  simp only [v2, s2, apply_ite Vars.config, apply_ite PrometheusCachetConfig.CachetURL, ite_self]
  simp only [v1, s1, apply_ite Vars.config, apply_ite PrometheusCachetConfig.CachetURL, ite_self]

theorem grabEnv_CachetToken (env : Env) (v : Vars) :
    (grabEnv env v).config.CachetToken =
      if Getenv env "CACHETHQ_TOKEN" ≠ "" then Getenv env "CACHETHQ_TOKEN" else v.config.CachetToken := by
  unfold grabEnv
  lift_lets
  intro s1 v1 s2 v2 s3 v3 v4 v5 v6 v7 v8 v9 s10 v10
  simp only [v10, s10, apply_ite Vars.config,
    apply_ite PrometheusCachetConfig.CachetToken, ite_self]
  simp only [v9, apply_ite Vars.config, apply_ite PrometheusCachetConfig.CachetToken, ite_self]
  simp only [v8, apply_ite Vars.config, apply_ite PrometheusCachetConfig.CachetToken, ite_self]
  have h7 : v7.config = v6.config := by
    simp only [v7]; split_ifs <;> (try split) <;> rfl
  rw [h7]
  simp only [v6, apply_ite Vars.config, apply_ite PrometheusCachetConfig.CachetToken, ite_self]
  simp only [v5, apply_ite Vars.config, apply_ite PrometheusCachetConfig.CachetToken, ite_self]
  simp only [v4, apply_ite Vars.config, apply_ite PrometheusCachetConfig.CachetToken, ite_self]
  simp only [v3, s3, apply_ite Vars.config, apply_ite PrometheusCachetConfig.CachetToken, ite_self]
  simp only [v2, s2, apply_ite Vars.config, apply_ite PrometheusCachetConfig.CachetToken, ite_self]
  simp only [v1, s1, apply_ite Vars.config, apply_ite PrometheusCachetConfig.CachetToken, ite_self]

theorem grabEnv_LabelName (env : Env) (v : Vars) :
    (grabEnv env v).config.LabelName =
      if Getenv env "LABEL_NAME" ≠ "" then Getenv env "LABEL_NAME" else v.config.LabelName := by
  unfold grabEnv
  lift_lets
  intro s1 v1 s2 v2 s3 v3 v4 v5 v6 v7 v8 v9 s10 v10
  simp only [v10, s10, apply_ite Vars.config, apply_ite PrometheusCachetConfig.LabelName, ite_self]
  simp only [v9, apply_ite Vars.config, apply_ite PrometheusCachetConfig.LabelName, ite_self]
  simp only [v8, apply_ite Vars.config, apply_ite PrometheusCachetConfig.LabelName, ite_self]
  have h7 : v7.config = v6.config := by
    simp only [v7]; split_ifs <;> (try split) <;> rfl
  rw [h7]
  simp only [v6, apply_ite Vars.config, apply_ite PrometheusCachetConfig.LabelName, ite_self]
  simp only [v5, apply_ite Vars.config, apply_ite PrometheusCachetConfig.LabelName, ite_self]
  simp only [v4, apply_ite Vars.config, apply_ite PrometheusCachetConfig.LabelName, ite_self]
  simp only [v3, s3, apply_ite Vars.config, apply_ite PrometheusCachetConfig.LabelName, ite_self]
  simp only [v2, s2, apply_ite Vars.config, apply_ite PrometheusCachetConfig.LabelName, ite_self]
  simp only [v1, s1, apply_ite Vars.config, apply_ite PrometheusCachetConfig.LabelName, ite_self]

theorem grabEnv_cachetRootCA (env : Env) (v : Vars) :
    (grabEnv env v).cachetRootCA =
      if Getenv env "CACHETHQ_ROOT_CA" ≠ "" then Getenv env "CACHETHQ_ROOT_CA" else v.cachetRootCA := by
  unfold grabEnv
  lift_lets
  intro s1 v1 s2 v2 s3 v3 v4 v5 v6 v7 v8 v9 s10 v10
  simp only [v10, s10, apply_ite Vars.cachetRootCA, ite_self]
  simp only [v9, apply_ite Vars.cachetRootCA, ite_self]
  simp only [v8, apply_ite Vars.cachetRootCA, ite_self]
  have h7 : v7.cachetRootCA = v6.cachetRootCA := by
    simp only [v7]; split_ifs <;> (try split) <;> rfl
  rw [h7]
  simp only [v6, apply_ite Vars.cachetRootCA, ite_self]
  simp only [v5, apply_ite Vars.cachetRootCA, ite_self]
  simp only [v4, apply_ite Vars.cachetRootCA, ite_self]
  simp only [v3, s3, apply_ite Vars.cachetRootCA, ite_self]
  simp only [v2, s2, apply_ite Vars.cachetRootCA, ite_self]
  simp only [v1, s1, apply_ite Vars.cachetRootCA, ite_self]

theorem grabEnv_loglevel (env : Env) (v : Vars) :
    (grabEnv env v).loglevel =
      if Getenv env "LOG_LEVEL" ≠ "" then Getenv env "LOG_LEVEL" else v.loglevel := by
  unfold grabEnv
  lift_lets
  intro s1 v1 s2 v2 s3 v3 v4 v5 v6 v7 v8 v9 s10 v10
  simp only [v10, s10, apply_ite Vars.loglevel, ite_self]
  simp only [v9, apply_ite Vars.loglevel, ite_self]
  simp only [v8, apply_ite Vars.loglevel, ite_self]
  have h7 : v7.loglevel = v6.loglevel := by
    simp only [v7]; split_ifs <;> (try split) <;> rfl
  rw [h7]
  simp only [v6, apply_ite Vars.loglevel, ite_self]
  simp only [v5, apply_ite Vars.loglevel, ite_self]
  simp only [v4, apply_ite Vars.loglevel, ite_self]
  simp only [v3, s3, apply_ite Vars.loglevel, ite_self]
  simp only [v2, s2, apply_ite Vars.loglevel, ite_self]
  simp only [v1, s1, apply_ite Vars.loglevel, ite_self]

theorem grabEnv_sslCert (env : Env) (v : Vars) :
    (grabEnv env v).sslCert =
      if Getenv env "SSL_CERT_FILE" ≠ "" then Getenv env "SSL_CERT_FILE" else v.sslCert := by
  unfold grabEnv
  lift_lets
  intro s1 v1 s2 v2 s3 v3 v4 v5 v6 v7 v8 v9 s10 v10
  simp only [v10, s10, apply_ite Vars.sslCert, ite_self]
  simp only [v9, apply_ite Vars.sslCert, ite_self]
  simp only [v8, apply_ite Vars.sslCert, ite_self]
  have h7 : v7.sslCert = v6.sslCert := by
    simp only [v7]; split_ifs <;> (try split) <;> rfl
  rw [h7]
  simp only [v6, apply_ite Vars.sslCert, ite_self]
  simp only [v5, apply_ite Vars.sslCert, ite_self]
  simp only [v4, apply_ite Vars.sslCert, ite_self]
  simp only [v3, s3, apply_ite Vars.sslCert, ite_self]
  simp only [v2, s2, apply_ite Vars.sslCert, ite_self]
  simp only [v1, s1, apply_ite Vars.sslCert, ite_self]

theorem grabEnv_sslKey (env : Env) (v : Vars) :
    (grabEnv env v).sslKey =
      if Getenv env "SSL_KEY_FILE" ≠ "" then Getenv env "SSL_KEY_FILE" else v.sslKey := by
  unfold grabEnv
  lift_lets
  intro s1 v1 s2 v2 s3 v3 v4 v5 v6 v7 v8 v9 s10 v10
  simp only [v10, s10, apply_ite Vars.sslKey, ite_self]
  simp only [v9, apply_ite Vars.sslKey, ite_self]
  simp only [v8, apply_ite Vars.sslKey, ite_self]
  have h7 : v7.sslKey = v6.sslKey := by
    simp only [v7]; split_ifs <;> (try split) <;> rfl
  rw [h7]
  simp only [v6, apply_ite Vars.sslKey, ite_self]
  simp only [v5, apply_ite Vars.sslKey, ite_self]
  simp only [v4, apply_ite Vars.sslKey, ite_self]
  simp only [v3, s3, apply_ite Vars.sslKey, ite_self]
  simp only [v2, s2, apply_ite Vars.sslKey, ite_self]
  simp only [v1, s1, apply_ite Vars.sslKey, ite_self]

theorem grabEnv_CachetIncidentVisibility (env : Env) (v : Vars) :
    (grabEnv env v).config.CachetIncidentVisibility = v.config.CachetIncidentVisibility := by
  unfold grabEnv
  lift_lets
  intro s1 v1 s2 v2 s3 v3 v4 v5 v6 v7 v8 v9 s10 v10
  simp only [v10, s10, apply_ite Vars.config,
    apply_ite PrometheusCachetConfig.CachetIncidentVisibility, ite_self]
  simp only [v9, apply_ite Vars.config,
    apply_ite PrometheusCachetConfig.CachetIncidentVisibility, ite_self]
  simp only [v8, apply_ite Vars.config,
    apply_ite PrometheusCachetConfig.CachetIncidentVisibility, ite_self]
  have h7 : v7.config = v6.config := by
    simp only [v7]; split_ifs <;> (try split) <;> rfl
  rw [h7]
  simp only [v6, apply_ite Vars.config,
    apply_ite PrometheusCachetConfig.CachetIncidentVisibility, ite_self]
  simp only [v5, apply_ite Vars.config,
    apply_ite PrometheusCachetConfig.CachetIncidentVisibility, ite_self]
  simp only [v4, apply_ite Vars.config,
    apply_ite PrometheusCachetConfig.CachetIncidentVisibility, ite_self]
  simp only [v3, s3, apply_ite Vars.config,
    apply_ite PrometheusCachetConfig.CachetIncidentVisibility, ite_self]
  simp only [v2, s2, apply_ite Vars.config,
    apply_ite PrometheusCachetConfig.CachetIncidentVisibility, ite_self]
  simp only [v1, s1, apply_ite Vars.config,
    apply_ite PrometheusCachetConfig.CachetIncidentVisibility, ite_self]

theorem grabEnv_cachetSkipVerifySsl (env : Env) (v : Vars) :
    (grabEnv env v).cachetSkipVerifySsl =
      if Getenv env "CACHETHQ_SKIP_VERIFY_SSL" = "true" then true else v.cachetSkipVerifySsl := by
  unfold grabEnv
  lift_lets
  intro s1 v1 s2 v2 s3 v3 v4 v5 v6 v7 v8 v9 s10 v10
  simp only [v10, s10, apply_ite Vars.cachetSkipVerifySsl, ite_self]
  simp only [v9, apply_ite Vars.cachetSkipVerifySsl, ite_self]
  simp only [v8, apply_ite Vars.cachetSkipVerifySsl, ite_self]
  have h7 : v7.cachetSkipVerifySsl = v6.cachetSkipVerifySsl := by
    simp only [v7]; split_ifs <;> (try split) <;> rfl
  rw [h7]
  simp only [v6, apply_ite Vars.cachetSkipVerifySsl, ite_self]
  simp only [v5, apply_ite Vars.cachetSkipVerifySsl, ite_self]
  simp only [v4, apply_ite Vars.cachetSkipVerifySsl, ite_self]
  simp only [v3, s3, apply_ite Vars.cachetSkipVerifySsl, ite_self]
  simp only [v2, s2, apply_ite Vars.cachetSkipVerifySsl, ite_self]
  simp only [v1, s1, apply_ite Vars.cachetSkipVerifySsl, ite_self]

theorem grabEnv_httpPort (env : Env) (v : Vars) :
    (grabEnv env v).httpPort =
      if Getenv env "HTTP_PORT" ≠ "" then
        match Atoi (Getenv env "HTTP_PORT") with
        | some port => port
        | none => v.httpPort
      else v.httpPort := by
  unfold grabEnv
  lift_lets
  intro s1 v1 s2 v2 s3 v3 v4 v5 v6 v7 v8 v9 s10 v10
  simp only [v10, s10, apply_ite Vars.httpPort, ite_self]
  simp only [v9, apply_ite Vars.httpPort, ite_self]
  simp only [v8, apply_ite Vars.httpPort, ite_self]
  have h7 : v7.httpPort =
      if Getenv env "HTTP_PORT" ≠ "" then
        match Atoi (Getenv env "HTTP_PORT") with
        | some port => port
        | none => v6.httpPort
      else v6.httpPort := by
    simp only [v7]; split_ifs <;> (try split) <;> rfl
  rw [h7]
  simp only [v6, apply_ite Vars.httpPort, ite_self]
  simp only [v5, apply_ite Vars.httpPort, ite_self]
  simp only [v4, apply_ite Vars.httpPort, ite_self]
  simp only [v3, s3, apply_ite Vars.httpPort, ite_self]
  simp only [v2, s2, apply_ite Vars.httpPort, ite_self]
  simp only [v1, s1, apply_ite Vars.httpPort, ite_self]

/-! ## The configuration step as a whole -/

theorem loadRootCAs_of_readable (readFile : ReadFile) (path : String)
    (h : path = "" ∨ ∃ caCert, readFile path = .ok caCert) :
    ∃ caCertPool, loadRootCAs readFile path = .ok caCertPool := by
  unfold loadRootCAs
  by_cases hp : path = ""
  · exact ⟨[], by simp [hp]⟩
  · rcases h with h | ⟨caCert, hc⟩
    · exact absurd h hp
    · exact ⟨[] ++ [caCert], by simp [hp, hc]⟩

theorem setLogLevel_LogLevel (loglevel : String) (config : PrometheusCachetConfig) :
    (setLogLevel loglevel config).LogLevel =
      if loglevel = "debug" then LOG_DEBUG else LOG_INFO := by
  unfold setLogLevel
  split_ifs <;> rfl

theorem setLogLevel_frame (loglevel : String) (config : PrometheusCachetConfig) :
    (setLogLevel loglevel config).PrometheusToken = config.PrometheusToken ∧
    (setLogLevel loglevel config).CachetURL = config.CachetURL ∧
    (setLogLevel loglevel config).CachetToken = config.CachetToken ∧
    (setLogLevel loglevel config).LabelName = config.LabelName ∧
    (setLogLevel loglevel config).HttpClient = config.HttpClient ∧
    (setLogLevel loglevel config).CachetIncidentVisibility = config.CachetIncidentVisibility := by
  unfold setLogLevel
  split_ifs <;> exact ⟨rfl, rfl, rfl, rfl, rfl, rfl⟩

/-- What a successful run of the configuration step leaves in the variables:
the client and the log level are new, everything else is as `grabEnv` left
it. -/
theorem configure_fields {readFile : ReadFile} {cl : CommandLine} {env : Env} {v : Vars}
    (h : configure readFile cl env = .ok v) :
    ∃ caCertPool,
      loadRootCAs readFile (grabEnv env (flagParse cl)).cachetRootCA = .ok caCertPool ∧
      v.config.HttpClient = some (buildHttpClient caCertPool (grabEnv env (flagParse cl)).cachetSkipVerifySsl) ∧
      v.config.LogLevel = (if (grabEnv env (flagParse cl)).loglevel = "debug" then LOG_DEBUG else LOG_INFO) ∧
      v.config.PrometheusToken = (grabEnv env (flagParse cl)).config.PrometheusToken ∧
      v.config.CachetURL = (grabEnv env (flagParse cl)).config.CachetURL ∧
      v.config.CachetToken = (grabEnv env (flagParse cl)).config.CachetToken ∧
      v.config.LabelName = (grabEnv env (flagParse cl)).config.LabelName ∧
      v.config.CachetIncidentVisibility = (grabEnv env (flagParse cl)).config.CachetIncidentVisibility ∧
      v.loglevel = (grabEnv env (flagParse cl)).loglevel ∧
      v.httpPort = (grabEnv env (flagParse cl)).httpPort ∧
      v.sslCert = (grabEnv env (flagParse cl)).sslCert ∧
      v.sslKey = (grabEnv env (flagParse cl)).sslKey ∧
      v.cachetRootCA = (grabEnv env (flagParse cl)).cachetRootCA ∧
      v.cachetSkipVerifySsl = (grabEnv env (flagParse cl)).cachetSkipVerifySsl := by
  unfold configure at h
  cases hl : loadRootCAs readFile (grabEnv env (flagParse cl)).cachetRootCA with
  | error err =>
    simp only [hl] at h
    cases h
  | ok caCertPool =>
    simp only [hl] at h
    injection h with h
    subst h
    obtain ⟨h1, h2, h3, h4, h5, h6⟩ := setLogLevel_frame (grabEnv env (flagParse cl)).loglevel
      { (grabEnv env (flagParse cl)).config with
        HttpClient := some (buildHttpClient caCertPool (grabEnv env (flagParse cl)).cachetSkipVerifySsl) }
    exact ⟨caCertPool, rfl, h5, setLogLevel_LogLevel _ _, h1, h2, h3, h4, h6,
      rfl, rfl, rfl, rfl, rfl, rfl⟩

/-- The configuration step succeeds as soon as the root CA file, when one is
configured, can be read. -/
theorem configure_total (readFile : ReadFile) (cl : CommandLine) (env : Env)
    (h : (grabEnv env (flagParse cl)).cachetRootCA = "" ∨
      ∃ caCert, readFile (grabEnv env (flagParse cl)).cachetRootCA = .ok caCert) :
    ∃ v, configure readFile cl env = .ok v := by
  obtain ⟨caCertPool, hp⟩ := loadRootCAs_of_readable readFile _ h
  unfold configure
  simp only [hp]
  exact ⟨_, rfl⟩

theorem env_over_flag {env : Env} {key x flag : String}
    (h : x = if Getenv env key ≠ "" then Getenv env key else flag) :
    (∀ value, env key = some value → value ≠ "" → x = value) ∧
    (env key = none ∨ env key = some "" → x = flag) := by
  constructor
  · intro value hv hne
    rw [h, Getenv_of_some hv, if_pos hne]
  · intro hempty
    have he : Getenv env key = "" := (Getenv_eq_empty_iff env key).mpr hempty
    rw [h, he]
    simp

/-! ## The claims -/

/-- C1: for every command line and every environment, each of the eight
string settings of the configuration step (Prometheus token, CachetHQ URL,
CachetHQ token, label name, root CA path, log level string, certificate file,
key file) equals the value of its environment variable when that variable is
set and non-empty, and equals the value of its flag, or the default of the
flag, when the variable is unset or empty. The last part says that whenever
the configuration step succeeds it hands on exactly these values. -/
theorem string_settings_env_over_flag (cl : CommandLine) (env : Env) :
    ((∀ value, env "PROMETHEUS_TOKEN" = some value → value ≠ "" →
        (grabEnv env (flagParse cl)).config.PrometheusToken = value) ∧
      (env "PROMETHEUS_TOKEN" = none ∨ env "PROMETHEUS_TOKEN" = some "" →
        (grabEnv env (flagParse cl)).config.PrometheusToken = cl.prometheus_token.getD "")) ∧
    ((∀ value, env "CACHETHQ_URL" = some value → value ≠ "" →
        (grabEnv env (flagParse cl)).config.CachetURL = value) ∧
      (env "CACHETHQ_URL" = none ∨ env "CACHETHQ_URL" = some "" →
        (grabEnv env (flagParse cl)).config.CachetURL = cl.cachethq_url.getD "http://127.0.0.1/")) ∧
    ((∀ value, env "CACHETHQ_TOKEN" = some value → value ≠ "" →
        (grabEnv env (flagParse cl)).config.CachetToken = value) ∧
      (env "CACHETHQ_TOKEN" = none ∨ env "CACHETHQ_TOKEN" = some "" →
        (grabEnv env (flagParse cl)).config.CachetToken = cl.cachethq_token.getD "")) ∧
    ((∀ value, env "LABEL_NAME" = some value → value ≠ "" →
        (grabEnv env (flagParse cl)).config.LabelName = value) ∧
      (env "LABEL_NAME" = none ∨ env "LABEL_NAME" = some "" →
        (grabEnv env (flagParse cl)).config.LabelName = cl.label_name.getD "alertname")) ∧
    ((∀ value, env "CACHETHQ_ROOT_CA" = some value → value ≠ "" →
        (grabEnv env (flagParse cl)).cachetRootCA = value) ∧
      (env "CACHETHQ_ROOT_CA" = none ∨ env "CACHETHQ_ROOT_CA" = some "" →
        (grabEnv env (flagParse cl)).cachetRootCA = cl.cachethq_root_ca.getD "")) ∧
    ((∀ value, env "LOG_LEVEL" = some value → value ≠ "" →
        (grabEnv env (flagParse cl)).loglevel = value) ∧
      (env "LOG_LEVEL" = none ∨ env "LOG_LEVEL" = some "" →
        (grabEnv env (flagParse cl)).loglevel = cl.log_level.getD "info")) ∧
    ((∀ value, env "SSL_CERT_FILE" = some value → value ≠ "" →
        (grabEnv env (flagParse cl)).sslCert = value) ∧
      (env "SSL_CERT_FILE" = none ∨ env "SSL_CERT_FILE" = some "" →
        (grabEnv env (flagParse cl)).sslCert = cl.ssl_cert_file.getD "")) ∧
    ((∀ value, env "SSL_KEY_FILE" = some value → value ≠ "" →
        (grabEnv env (flagParse cl)).sslKey = value) ∧
      (env "SSL_KEY_FILE" = none ∨ env "SSL_KEY_FILE" = some "" →
        (grabEnv env (flagParse cl)).sslKey = cl.ssl_key_file.getD "")) ∧
    (∀ (readFile : ReadFile) (v : Vars), configure readFile cl env = .ok v →
      v.config.PrometheusToken = (grabEnv env (flagParse cl)).config.PrometheusToken ∧
      v.config.CachetURL = (grabEnv env (flagParse cl)).config.CachetURL ∧
      v.config.CachetToken = (grabEnv env (flagParse cl)).config.CachetToken ∧
      v.config.LabelName = (grabEnv env (flagParse cl)).config.LabelName ∧
      v.cachetRootCA = (grabEnv env (flagParse cl)).cachetRootCA ∧
      v.loglevel = (grabEnv env (flagParse cl)).loglevel ∧
      v.sslCert = (grabEnv env (flagParse cl)).sslCert ∧
      v.sslKey = (grabEnv env (flagParse cl)).sslKey) := by
  refine ⟨env_over_flag (grabEnv_PrometheusToken env (flagParse cl)),
    env_over_flag (grabEnv_CachetURL env (flagParse cl)),
    env_over_flag (grabEnv_CachetToken env (flagParse cl)),
    env_over_flag (grabEnv_LabelName env (flagParse cl)),
    env_over_flag (grabEnv_cachetRootCA env (flagParse cl)),
    env_over_flag (grabEnv_loglevel env (flagParse cl)),
    env_over_flag (grabEnv_sslCert env (flagParse cl)),
    env_over_flag (grabEnv_sslKey env (flagParse cl)), ?_⟩
  intro readFile v h
  obtain ⟨_, _, _, _, h1, h2, h3, h4, _, h6, _, h8, h9, h10, _⟩ := configure_fields h
  exact ⟨h1, h2, h3, h4, h10, h6, h8, h9⟩

/-- Witness for C1: with `PROMETHEUS_TOKEN` set the token comes from the
environment, and with `SSL_KEY_FILE` set to the empty string the key file
comes from the flag. -/
theorem string_settings_env_over_flag_witness :
    (grabEnv dockerEnv (flagParse sampleFlags)).config.PrometheusToken = "s3cret" ∧
    (grabEnv dockerEnv (flagParse sampleFlags)).sslKey = "/flags/server.key" :=
  ⟨(string_settings_env_over_flag sampleFlags dockerEnv).1.1 "s3cret" rfl (by decide),
   (string_settings_env_over_flag sampleFlags dockerEnv).2.2.2.2.2.2.2.1.2 (Or.inr rfl)⟩

/-- C2: with no flag on the command line and none of the configuration
environment variables set, the configuration step succeeds and yields
`LabelName = "alertname"` and `CachetIncidentVisibility = false`. -/
theorem default_label_and_visibility (readFile : ReadFile) (env : Env)
    (h : ∀ key ∈ configEnvVars, env key = none) :
    ∃ v, configure readFile noFlags env = .ok v ∧
      v.config.LabelName = "alertname" ∧
      v.config.CachetIncidentVisibility = false := by
  have hca : Getenv env "CACHETHQ_ROOT_CA" = "" :=
    Getenv_of_none (h _ (by simp [configEnvVars]))
  have hlabel : Getenv env "LABEL_NAME" = "" :=
    Getenv_of_none (h _ (by simp [configEnvVars]))
  have hroot : (grabEnv env (flagParse noFlags)).cachetRootCA = "" := by
    rw [grabEnv_cachetRootCA, hca]
    rfl
  obtain ⟨v, hv⟩ := configure_total readFile noFlags env (Or.inl hroot)
  obtain ⟨_, _, _, _, _, _, _, h4, h5, _⟩ := configure_fields hv
  refine ⟨v, hv, ?_, ?_⟩
  · rw [h4, grabEnv_LabelName, hlabel]
    rfl
  · rw [h5, grabEnv_CachetIncidentVisibility]
    rfl

/-- Witness for C2: the empty environment on a file system without files. -/
theorem default_label_and_visibility_witness :
    ∃ v, configure noFiles noFlags noEnv = .ok v ∧
      v.config.LabelName = "alertname" ∧
      v.config.CachetIncidentVisibility = false :=
  default_label_and_visibility noFiles noEnv (fun _ _ => rfl)

/-- C3, counterexample: with no flag and no environment variable the client
`main` builds has `Timeout = 0`, which net/http reads as no timeout, so its
request timeout is not a non-zero duration. -/
theorem httpClient_timeout_counterexample :
    ∃ v c, configure noFiles noFlags noEnv = .ok v ∧
      v.config.HttpClient = some c ∧
      c.Timeout = 0 ∧ ¬ (0 < c.Timeout) :=
  ⟨_, _, rfl, rfl, rfl, by decide⟩

/-- C3, amended: for every command line and every environment on which the
configuration step gets past the root CA file, the client built for the
CachetHQ calls has no timeout at all: `Timeout` and the handshake and
response-header timeouts of its transport are zero. The only bounded timeouts
`main` sets are the ten-second read and write timeouts of the inbound
server. -/
theorem httpClient_has_no_timeout (readFile : ReadFile) (cl : CommandLine) (env : Env)
    (h : (grabEnv env (flagParse cl)).cachetRootCA = "" ∨
      ∃ caCert, readFile (grabEnv env (flagParse cl)).cachetRootCA = .ok caCert) :
    ∃ v c, configure readFile cl env = .ok v ∧
      v.config.HttpClient = some c ∧
      c.Timeout = 0 ∧
      c.Transport.TLSHandshakeTimeout = 0 ∧
      c.Transport.ResponseHeaderTimeout = 0 ∧
      (∀ (Router : Type) (PrepareGinRouter : PrometheusCachetConfig → Router),
        (buildServer PrepareGinRouter v).ReadTimeout = 10 * Second ∧
        (buildServer PrepareGinRouter v).WriteTimeout = 10 * Second) := by
  obtain ⟨v, hv⟩ := configure_total readFile cl env h
  obtain ⟨caCertPool, _, hc, _⟩ := configure_fields hv
  exact ⟨v, _, hv, hc, rfl, rfl, rfl, fun _ _ => ⟨rfl, rfl⟩⟩

/-- Witness for C3 amended: the container environment with its root CA file
in place. -/
theorem httpClient_has_no_timeout_witness :
    ∃ v c, configure oneCAFile sampleFlags dockerEnv = .ok v ∧
      v.config.HttpClient = some c ∧
      c.Timeout = 0 ∧
      c.Transport.TLSHandshakeTimeout = 0 ∧
      c.Transport.ResponseHeaderTimeout = 0 ∧
      (∀ (Router : Type) (PrepareGinRouter : PrometheusCachetConfig → Router),
        (buildServer PrepareGinRouter v).ReadTimeout = 10 * Second ∧
        (buildServer PrepareGinRouter v).WriteTimeout = 10 * Second) :=
  httpClient_has_no_timeout oneCAFile sampleFlags dockerEnv (Or.inr ⟨_, rfl⟩)

/-- C4: the incident state machine is a total function of the cached incident
reference and the event status. It returns `CreateIncident` for (absent,
Firing), `NoOp` for (absent, Resolved), `UpdateIncident` for (present, Firing)
and `ResolveIncident` for (present, Resolved); a Firing event for an identity
with an open incident never yields `CreateIncident`. -/
theorem incidentStateMachine_table {IncidentRef : Type} :
    incidentStateMachine (none : Option IncidentRef) .Firing = .CreateIncident ∧
    incidentStateMachine (none : Option IncidentRef) .Resolved = .NoOp ∧
    (∀ ref : IncidentRef, incidentStateMachine (some ref) .Firing = .UpdateIncident) ∧
    (∀ ref : IncidentRef, incidentStateMachine (some ref) .Resolved = .ResolveIncident) ∧
    (∀ ref : IncidentRef, incidentStateMachine (some ref) .Firing ≠ .CreateIncident) :=
  ⟨rfl, rfl, fun _ => rfl, fun _ => rfl, fun _ h => by cases h⟩

/-- C5: once the configuration step has succeeded, `main` calls
`ListenAndServeTLS` if and only if the effective certificate file and the
effective key file are both non-empty, and then with exactly these two
values; when either is empty it calls `ListenAndServe`, on a server that
does not depend on the certificate or the key. -/
theorem https_iff_cert_and_key {Router : Type}
    (PrepareGinRouter : PrometheusCachetConfig → Router)
    (readFile : ReadFile) (cl : CommandLine) (env : Env) (v : Vars)
    (h : configure readFile cl env = .ok v) :
    ((∃ server certFile keyFile,
        main PrepareGinRouter readFile cl env = .ListenAndServeTLS server certFile keyFile) ↔
      (grabEnv env (flagParse cl)).sslCert ≠ "" ∧ (grabEnv env (flagParse cl)).sslKey ≠ "") ∧
    ((grabEnv env (flagParse cl)).sslCert ≠ "" ∧ (grabEnv env (flagParse cl)).sslKey ≠ "" →
      main PrepareGinRouter readFile cl env =
        .ListenAndServeTLS (buildServer PrepareGinRouter v) (grabEnv env (flagParse cl)).sslCert (grabEnv env (flagParse cl)).sslKey) ∧
    ((grabEnv env (flagParse cl)).sslCert = "" ∨ (grabEnv env (flagParse cl)).sslKey = "" →
      main PrepareGinRouter readFile cl env =
        .ListenAndServe (buildServer PrepareGinRouter v)) ∧
    (∀ certFile keyFile : String,
      buildServer PrepareGinRouter { v with sslCert := certFile, sslKey := keyFile } =
        buildServer PrepareGinRouter v) := by
  obtain ⟨_, _, _, _, _, _, _, _, _, _, _, hcert, hkey, _⟩ := configure_fields h
  have hmain : main PrepareGinRouter readFile cl env =
      serve (buildServer PrepareGinRouter v) (grabEnv env (flagParse cl)).sslCert (grabEnv env (flagParse cl)).sslKey := by
    unfold main
    simp only [h, hcert, hkey]
  have hboth : (grabEnv env (flagParse cl)).sslCert ≠ "" ∧ (grabEnv env (flagParse cl)).sslKey ≠ "" →
      main PrepareGinRouter readFile cl env =
        .ListenAndServeTLS (buildServer PrepareGinRouter v) (grabEnv env (flagParse cl)).sslCert (grabEnv env (flagParse cl)).sslKey := by
    intro hb
    rw [hmain]
    unfold serve
    rw [if_pos hb]
  have hone : (grabEnv env (flagParse cl)).sslCert = "" ∨ (grabEnv env (flagParse cl)).sslKey = "" →
      main PrepareGinRouter readFile cl env =
        .ListenAndServe (buildServer PrepareGinRouter v) := by
    intro ho
    have hnb : ¬ ((grabEnv env (flagParse cl)).sslCert ≠ "" ∧ (grabEnv env (flagParse cl)).sslKey ≠ "") := by
      rintro ⟨hc, hk⟩
      rcases ho with ho | ho
      · exact hc ho
      · exact hk ho
    rw [hmain]
    unfold serve
    rw [if_neg hnb]
  refine ⟨⟨?_, fun hb => ⟨_, _, _, hboth hb⟩⟩, hboth, hone, fun _ _ => rfl⟩
  rintro ⟨server, certFile, keyFile, htls⟩
  by_contra hnb
  have ho : (grabEnv env (flagParse cl)).sslCert = "" ∨ (grabEnv env (flagParse cl)).sslKey = "" := by
    by_cases hc : (grabEnv env (flagParse cl)).sslCert = ""
    · exact Or.inl hc
    · by_cases hk : (grabEnv env (flagParse cl)).sslKey = ""
      · exact Or.inr hk
      · exact absurd ⟨hc, hk⟩ hnb
  rw [hone ho] at htls
  cases htls

/-- Witness for C5: in the container environment the certificate comes from
`SSL_CERT_FILE`, and `SSL_KEY_FILE` is empty, so the key comes from the flag;
both are non-empty and the server is HTTPS. -/
theorem https_iff_cert_and_key_witness :
    ∃ v, configure oneCAFile sampleFlags dockerEnv = .ok v ∧
      main (fun config => config) oneCAFile sampleFlags dockerEnv =
        .ListenAndServeTLS (buildServer (fun config => config) v)
          "/tls/server.crt" "/flags/server.key" :=
  ⟨_, rfl, (https_iff_cert_and_key (fun config => config) oneCAFile sampleFlags dockerEnv _
    rfl).2.1 (by decide)⟩

/-- C6: for every command line and every environment on which the client is
built, the client skips certificate verification if and only if the flag
`cachethq_skip_verify_ssl` is true or `CACHETHQ_SKIP_VERIFY_SSL` is exactly
`true`; so with the flag true the bypass stays on whatever the variable
holds. -/
theorem skip_verify_iff_flag_or_env (readFile : ReadFile) (cl : CommandLine) (env : Env)
    (h : (grabEnv env (flagParse cl)).cachetRootCA = "" ∨
      ∃ caCert, readFile (grabEnv env (flagParse cl)).cachetRootCA = .ok caCert) :
    ∃ v c, configure readFile cl env = .ok v ∧
      v.config.HttpClient = some c ∧
      (c.Transport.TLSClientConfig.InsecureSkipVerify = true ↔
        cl.cachethq_skip_verify_ssl.getD false = true ∨
          env "CACHETHQ_SKIP_VERIFY_SSL" = some "true") ∧
      (cl.cachethq_skip_verify_ssl = some true →
        c.Transport.TLSClientConfig.InsecureSkipVerify = true) := by
  obtain ⟨v, hv⟩ := configure_total readFile cl env h
  obtain ⟨caCertPool, _, hc, _⟩ := configure_fields hv
  have hskip : (grabEnv env (flagParse cl)).cachetSkipVerifySsl = true ↔
      cl.cachethq_skip_verify_ssl.getD false = true ∨
        env "CACHETHQ_SKIP_VERIFY_SSL" = some "true" := by
    rw [grabEnv_cachetSkipVerifySsl, ← Getenv_eq_true_iff]
    by_cases he : Getenv env "CACHETHQ_SKIP_VERIFY_SSL" = "true"
    · simp [he]
    · simp only [he, if_false, or_false]
      rfl
  refine ⟨v, _, hv, hc, hskip, ?_⟩
  intro hflag
  exact hskip.mpr (Or.inl (by rw [hflag]; rfl))

/-- Witness for C6: the flag is true and the variable holds `false`; the
bypass is on. -/
theorem skip_verify_iff_flag_or_env_witness :
    ∃ v c, configure oneCAFile sampleFlags dockerEnv = .ok v ∧
      v.config.HttpClient = some c ∧
      (c.Transport.TLSClientConfig.InsecureSkipVerify = true ↔
        sampleFlags.cachethq_skip_verify_ssl.getD false = true ∨
          dockerEnv "CACHETHQ_SKIP_VERIFY_SSL" = some "true") ∧
      (sampleFlags.cachethq_skip_verify_ssl = some true →
        c.Transport.TLSClientConfig.InsecureSkipVerify = true) :=
  skip_verify_iff_flag_or_env oneCAFile sampleFlags dockerEnv (Or.inr ⟨_, rfl⟩)

/-- C7: for every effective log level string, the configuration step (which
succeeds whenever the root CA file can be read, whatever the string is) sets
`LogLevel` to `LOG_DEBUG = 0` if and only if the string is exactly `debug`,
and to `LOG_INFO = 1` for every other string, among them `info`, the empty
string and `DEBUG`. -/
theorem logLevel_debug_iff (readFile : ReadFile) (cl : CommandLine) (env : Env)
    (h : (grabEnv env (flagParse cl)).cachetRootCA = "" ∨
      ∃ caCert, readFile (grabEnv env (flagParse cl)).cachetRootCA = .ok caCert) :
    ∃ v, configure readFile cl env = .ok v ∧
      (v.config.LogLevel = LOG_DEBUG ↔ (grabEnv env (flagParse cl)).loglevel = "debug") ∧
      ((grabEnv env (flagParse cl)).loglevel ≠ "debug" → v.config.LogLevel = LOG_INFO) ∧
      ((grabEnv env (flagParse cl)).loglevel = "info" ∨ (grabEnv env (flagParse cl)).loglevel = "" ∨ (grabEnv env (flagParse cl)).loglevel = "DEBUG" →
        v.config.LogLevel = 1) ∧
      LOG_DEBUG = 0 ∧ LOG_INFO = 1 := by
  obtain ⟨v, hv⟩ := configure_total readFile cl env h
  obtain ⟨_, _, _, hl, _⟩ := configure_fields hv
  have hother : (grabEnv env (flagParse cl)).loglevel ≠ "debug" → v.config.LogLevel = LOG_INFO := by
    intro hne
    rw [hl, if_neg hne]
  refine ⟨v, hv, ⟨?_, ?_⟩, hother, ?_, rfl, rfl⟩
  · intro hd
    by_contra hne
    rw [hother hne] at hd
    exact absurd hd (by decide)
  · intro he
    rw [hl, if_pos he]
  · intro hcases
    apply hother
    rcases hcases with hs | hs | hs <;> rw [hs] <;> decide

/-- Witness for C7: the flag says `debug`, `LOG_LEVEL` says `DEBUG`; the
variable wins and the level is `LOG_INFO`. -/
theorem logLevel_debug_iff_witness :
    (grabEnv dockerEnv (flagParse sampleFlags)).loglevel = "DEBUG" ∧
    ∃ v, configure oneCAFile sampleFlags dockerEnv = .ok v ∧
      (v.config.LogLevel = LOG_DEBUG ↔
        (grabEnv dockerEnv (flagParse sampleFlags)).loglevel = "debug") ∧
      ((grabEnv dockerEnv (flagParse sampleFlags)).loglevel ≠ "debug" →
        v.config.LogLevel = LOG_INFO) ∧
      ((grabEnv dockerEnv (flagParse sampleFlags)).loglevel = "info" ∨
        (grabEnv dockerEnv (flagParse sampleFlags)).loglevel = "" ∨
        (grabEnv dockerEnv (flagParse sampleFlags)).loglevel = "DEBUG" →
        v.config.LogLevel = 1) ∧
      LOG_DEBUG = 0 ∧ LOG_INFO = 1 :=
  ⟨by decide, logLevel_debug_iff oneCAFile sampleFlags dockerEnv (Or.inr ⟨_, rfl⟩)⟩

/-- C8: the listening port is the integer `strconv.Atoi` reads from
`HTTP_PORT` when that variable is non-empty and `Atoi` succeeds; when the
variable is unset, empty, or rejected by `Atoi`, the port stays the value of
the flag `http_port` (default 8080). The server address is a colon followed by
the port in decimal. -/
theorem httpPort_from_env_or_flag (cl : CommandLine) (env : Env) :
    (∀ value port, env "HTTP_PORT" = some value → value ≠ "" → Atoi value = some port →
      (grabEnv env (flagParse cl)).httpPort = port) ∧
    (env "HTTP_PORT" = none ∨ env "HTTP_PORT" = some "" ∨
        (∃ value, env "HTTP_PORT" = some value ∧ Atoi value = none) →
      (grabEnv env (flagParse cl)).httpPort = cl.http_port.getD 8080) ∧
    (∀ (Router : Type) (PrepareGinRouter : PrometheusCachetConfig → Router)
        (readFile : ReadFile) (v : Vars), configure readFile cl env = .ok v →
      (buildServer PrepareGinRouter v).Addr = ":" ++ toString (grabEnv env (flagParse cl)).httpPort) := by
  refine ⟨?_, ?_, ?_⟩
  · intro value port hv hne hp
    rw [grabEnv_httpPort, Getenv_of_some hv, if_pos hne, hp]
  · intro hcases
    rw [grabEnv_httpPort]
    rcases hcases with hn | he | ⟨value, hv, hp⟩
    · rw [Getenv_of_none hn]
      rfl
    · rw [Getenv_of_some he]
      rfl
    · rw [Getenv_of_some hv, hp]
      split_ifs <;> rfl
  · intro Router PrepareGinRouter readFile v hv
    obtain ⟨_, _, _, _, _, _, _, _, _, _, hport, _⟩ := configure_fields hv
    show ":" ++ toString v.httpPort = _
    rw [hport]

/-- Witness for C8: `HTTP_PORT=9090` overrides the flag value 8443. -/
theorem httpPort_from_env_or_flag_witness :
    (grabEnv dockerEnv (flagParse sampleFlags)).httpPort = 9090 :=
  (httpPort_from_env_or_flag sampleFlags dockerEnv).1 "9090" 9090 rfl (by decide) (by decide)

end PrometheusCachetHQ
